import Mathlib

/-!
Verification of the natural-language specification of parse-video-py
against a shallow embedding of `src/main.py`.

The embedding translates the Python handlers into pure Lean functions:
the regex used by `share_url_parse` becomes an executable matcher over
`List Char`, the HTTP handlers become functions parameterised by the
outbound fetch (for `download_proxy`) or by the parse operation (for
`share_url_parse` and `video_id_parse`), and exceptions become explicit
result constructors.  The regex class `\w` is a parameter of the matcher
(CPython resolves it against its Unicode tables, which live outside this
repository); the dispatcher theorems hold for every interpretation of
that class, in particular for the CPython one.
-/

set_option autoImplicit false

/-! ## The URL regex of `share_url_parse`

`src/main.py` line 114 compiles
`http[s]?://[\w.-]+[\w\57-]*[\w.-]*\??[\w=&:\-\+\%]*[/]*`
(`\57` stands here for the escaped forward slash of the original pattern)
and calls `.search(url).group()`.  Each bracket class becomes a `Char`
predicate and the greedy quantifiers become maximal-run computations;
because every piece after `[\w.-]+` is nullable, the Python backtracking
engine takes the maximal run for each class in order, with the single
backtracking point being the optional `s` of the scheme.

The pattern is compiled on a `str` without `re.ASCII`, so `\w` matches
Unicode word characters: alphanumerics of every script, plus the
underscore.  The full classification is CPython data, not source of this
repository, so every definition below takes the class as an explicit
parameter `w : Char → Bool`, and the theorems about the dispatcher are
proved for all `w` — they therefore hold for the CPython class itself.
Two executable instances are provided: `asciiWordChar`, the ASCII
fragment of the class (CPython and the fragment agree on every ASCII
character, hence on every all-ASCII string), used to run witnesses on
ASCII inputs; and `cjkWordChar`, which adds the CJK Unified Ideographs
block, used to exercise the matcher on Chinese share text. -/

/-- The ASCII fragment of the CPython class `\w`: ASCII alphanumerics and
the underscore.  On ASCII characters this is exactly the CPython class. -/
def asciiWordChar (c : Char) : Bool := c.isAlphanum || c == '_'

/-- The ASCII fragment of `\w` extended with the CJK Unified Ideographs
block (U+4E00 to U+9FFF), all of which CPython classifies as word
characters. -/
def cjkWordChar (c : Char) : Bool :=
  c.isAlphanum || c == '_' || (0x4E00 ≤ c.toNat && c.toNat ≤ 0x9FFF)

/-- Character class `[\w.-]` of the regex, for the word class `w`. -/
def isHostChar (w : Char → Bool) (c : Char) : Bool := w c || c == '.' || c == '-'

/-- Character class `[\w\57-]` (word, slash, hyphen) of the regex, for the
word class `w`. -/
def isPathChar (w : Char → Bool) (c : Char) : Bool := w c || c == '/' || c == '-'

/-- Character class `[\w=&:\-\+\%]` of the regex, for the word class `w`. -/
def isQueryChar (w : Char → Bool) (c : Char) : Bool :=
  w c || c == '=' || c == '&' || c == ':' || c == '-' || c == '+' || c == '%'

/-- Character class `[/]` of the regex. -/
def isSlash (c : Char) : Bool := c == '/'

/-- Length of the maximal prefix of the list whose characters satisfy `p`:
the extent consumed by a greedy `*` or `+` on the class `p`. -/
def takeRun (p : Char → Bool) : List Char → Nat
  | [] => 0
  | c :: cs => if p c then takeRun p cs + 1 else 0

/-- Match `://[\w.-]+[\w\57-]*[\w.-]*\??[\w=&:\-\+\%]*[/]*` at the head of
the list, for the word class `w`, returning the number of characters
consumed. -/
def matchSchemeTail (w : Char → Bool) (cs : List Char) : Option Nat :=
  match cs with
  | ':' :: '/' :: '/' :: rest =>
    let n1 := takeRun (isHostChar w) rest
    if n1 = 0 then none
    else
      let r1 := List.drop n1 rest
      let n2 := takeRun (isPathChar w) r1
      let r2 := List.drop n2 r1
      let n3 := takeRun (isHostChar w) r2
      let r3 := List.drop n3 r2
      let n4 := match r3 with
        | '?' :: _ => 1
        | _ => 0
      let r4 := List.drop n4 r3
      let n5 := takeRun (isQueryChar w) r4
      let r5 := List.drop n5 r4
      let n6 := takeRun isSlash r5
      some (3 + n1 + n2 + n3 + n4 + n5 + n6)
  | _ => none

/-- Match the whole URL pattern at the head of the list, for the word
class `w`, returning the length of the match.  The optional `s` of
`http[s]?` is the one backtracking point: the greedy engine first tries
to consume it and falls back to the empty alternative. -/
def matchUrlHere (w : Char → Bool) : List Char → Option Nat
  | 'h' :: 't' :: 't' :: 'p' :: rest =>
    match rest with
    | 's' :: rest2 =>
      match matchSchemeTail w rest2 with
      | some n => some (5 + n)
      | none => Option.map (fun n => 4 + n) (matchSchemeTail w rest)
    | _ => Option.map (fun n => 4 + n) (matchSchemeTail w rest)
  | _ => none

/-- Python `re.search`: scan left to right and return the start index and
length of the first position at which the pattern matches. -/
def searchFrom (w : Char → Bool) : List Char → Option (Nat × Nat)
  | [] => none
  | c :: cs =>
    match matchUrlHere w (c :: cs) with
    | some n => some (0, n)
    | none => Option.map (fun p => (p.1 + 1, p.2)) (searchFrom w cs)

/-- The `url_reg.search(url)` of `share_url_parse`, returning the matched
substring (the result of `.group()`), or `none` when `search` returns
`None`. -/
def urlRegSearch (w : Char → Bool) (s : String) : Option String :=
  Option.map (fun p => String.mk (List.take p.2 (List.drop p.1 s.data)))
    (searchFrom w s.data)

/-! ## Data model

`ResolvedVideo` and the error taxonomy follow the spec (the `parser`
package that defines the Python counterparts is not under `src/`). -/

/-- Modelled from the spec: `VideoSource`, the enumerated platform tag
imported from the `parser` package (illustrative platforms of section 3). -/
inductive VideoSource where
  | douYin
  | kuaiShou
  | xiaoHongShu
  deriving Repr, DecidableEq, BEq

/-- Modelled from the spec: the `author` part of `ResolvedVideo`. -/
structure Author where
  name : String
  avatarUrl : String
  deriving Repr, DecidableEq

/-- Modelled from the spec: the normalized descriptor `ResolvedVideo`
returned by the `parser` package. -/
structure ResolvedVideo where
  source : VideoSource
  title : String
  author : Author
  coverUrl : String
  videoUrl : String
  musicUrl : Option String
  images : List String
  deriving Repr, DecidableEq

/-- Modelled from the spec: the error taxonomy of section 7. -/
inductive ErrorKind where
  | invalidInputError
  | unsupportedSourceError
  | notFoundError
  | upstreamFormatError
  | networkError
  deriving Repr, DecidableEq

/-- Modelled from the spec: a structured parser-side error with a kind and
a human-readable message (`str(err)` reads the message). -/
structure ParserError where
  kind : ErrorKind
  msg : String
  deriving Repr, DecidableEq

/-- A Python exception escaping a handler uncaught. -/
inductive PyExn where
  | attributeError (msg : String)
  deriving Repr, DecidableEq

/-- Message of the `AttributeError` raised by `None.group()`. -/
def noneTypeGroupMsg : String := "NoneType object has no attribute group"

/-- Outcome of one of the two parse endpoints: the JSON body returned on
the normal path, the JSON body returned by the `except` branch, or an
exception that escapes the handler uncaught. -/
inductive HandlerResponse where
  | success (code : Nat) (msg : String) (data : ResolvedVideo)
  | failure (code : Nat) (msg : String)
  | uncaught (e : PyExn)
  deriving Repr, DecidableEq

/-- The `try`/`except` body shared by both parse endpoints: a parse result
becomes `{"code": 200, "msg": "解析成功", "data": ...}`, a raised error
becomes `{"code": 500, "msg": str(err)}`. -/
def respond : Except ParserError ResolvedVideo → HandlerResponse
  | .ok v => .success 200 "解析成功" v
  | .error e => .failure 500 e.msg

/-- `share_url_parse` of `src/main.py` lines 112-124, parameterised by the
word class `w` of the regex and by the imported `parse_video_share_url`.
The regex search and `.group()` happen before the `try`, so a failed
search raises `AttributeError` uncaught. -/
def share_url_parse (w : Char → Bool) (parse : String → Except ParserError ResolvedVideo)
    (url : String) : HandlerResponse :=
  match urlRegSearch w url with
  | none => .uncaught (.attributeError noneTypeGroupMsg)
  | some m => respond (parse m)

/-- `video_id_parse` of `src/main.py` lines 127-136, parameterised by the
imported `parse_video_id`; its whole body sits inside the `try`. -/
def video_id_parse (parse : VideoSource → String → Except ParserError ResolvedVideo)
    (source : VideoSource) (videoId : String) : HandlerResponse :=
  respond (parse source videoId)

/-- A handler outcome that is a structured (caught) failure response; an
uncaught exception is not a structured failure of any error kind. -/
def isStructuredFailure : HandlerResponse → Bool
  | .failure _ _ => true
  | _ => false

/-! ## Helper lemmas about the regex search -/

/-- A successful `searchFrom` returns a match position, and no earlier
position matches: the leftmost-match property of `re.search`, for every
word class `w`. -/
theorem searchFrom_spec (w : Char → Bool) (cs : List Char) (i n : Nat)
    (h : searchFrom w cs = some (i, n)) :
    matchUrlHere w (List.drop i cs) = some n ∧
      ∀ j, j < i → matchUrlHere w (List.drop j cs) = none := by
  induction cs generalizing i n with
  | nil => simp [searchFrom] at h
  | cons c cs ih =>
    cases hm : matchUrlHere w (c :: cs) with
    | some n0 =>
      simp only [searchFrom, hm] at h
      obtain ⟨rfl, rfl⟩ := Prod.mk.injEq .. ▸ Option.some.inj h
      exact ⟨by simpa using hm, by intro j hj; omega⟩
    | none =>
      simp only [searchFrom, hm] at h
      cases hq : searchFrom w cs with
      | none => rw [hq] at h; simp at h
      | some p =>
        rw [hq] at h
        simp only [Option.map_some', Option.some.injEq] at h
        obtain ⟨h1, h2⟩ := Prod.mk.injEq .. ▸ h
        obtain ⟨ih1, ih2⟩ := ih p.1 p.2 (by rw [hq])
        subst h1
        subst h2
        refine ⟨by simpa using ih1, ?_⟩
        intro j hj
        cases j with
        | zero => simpa using hm
        | succ j' =>
          rw [List.drop_succ_cons]
          exact ih2 j' (Nat.lt_of_succ_lt_succ hj)

/-- A failed `searchFrom` means no position of the text matches, for every
word class `w`. -/
theorem searchFrom_none_spec (w : Char → Bool) (cs : List Char) (h : searchFrom w cs = none) :
    ∀ j, matchUrlHere w (List.drop j cs) = none := by
  induction cs with
  | nil =>
    intro j
    rw [List.drop_nil]
    rfl
  | cons c cs ih =>
    intro j
    cases hm : matchUrlHere w (c :: cs) with
    | some n0 => simp [searchFrom, hm] at h
    | none =>
      cases j with
      | zero => simpa using hm
      | succ j' =>
        simp only [searchFrom, hm] at h
        have h' : searchFrom w cs = none := by
          cases hq : searchFrom w cs with
          | none => rfl
          | some p => rw [hq] at h; simp at h
        rw [List.drop_succ_cons]
        exact ih h' j'

/-- Instantiated at `cjkWordChar`, the matcher reproduces the CPython
result on Chinese text whose URL consists of CJK word characters:
`url_reg.search` on this input matches at index 2 and `.group()` returns
the ten-character `http://中文网` (checked against CPython 3). -/
theorem urlRegSearch_cjk_host_sample :
    searchFrom cjkWordChar ("看看http://中文网").data = some (2, 10) ∧
    urlRegSearch cjkWordChar "看看http://中文网" = some "http://中文网" := by
  refine ⟨by decide, by decide⟩

/-- Instantiated at `cjkWordChar`, the matcher reproduces the CPython
result on a URL immediately followed by CJK word characters: the greedy
path run absorbs them and `.group()` returns the whole string (checked
against CPython 3). -/
theorem urlRegSearch_cjk_tail_sample :
    urlRegSearch cjkWordChar "https://v.douyin.com/abc复制此链接" =
      some "https://v.douyin.com/abc复制此链接" := by
  decide

/-! ## The download proxy

`download_proxy` (`src/main.py` lines 61-98) issues an outbound GET with
fixed spoofed headers, calls `resp.raise_for_status()` (which raises
`httpx.HTTPStatusError` for every non-2xx status), and on success wraps
the raw byte stream in a `StreamingResponse` carrying the upstream status
and content-type.  `httpx.RequestError` becomes a 500 `HTTPException`;
`httpx.HTTPStatusError` becomes an `HTTPException` with the upstream
status code.  FastAPI renders an `HTTPException` as a JSON body. -/

/-- The final upstream HTTP response seen by the proxy after redirects. -/
structure UpstreamResponse where
  statusCode : Nat
  contentType : Option String
  contentLength : Option String
  body : List Nat
  deriving Repr, DecidableEq

/-- Outcome of the outbound `client.get`: a response, or a transport-level
`httpx.RequestError` (timeout, DNS failure, connection reset, ...). -/
inductive FetchResult where
  | response (r : UpstreamResponse)
  | requestError (msg : String)
  deriving Repr, DecidableEq

/-- The spoofed browser User-Agent of `src/main.py` lines 72-74 (the three
adjacent Python string literals concatenate). -/
def chromeUA : String :=
  "Mozilla/5.0 (Windows NT 10.0; Win64; x64) AppleWebKit/537.36 (KHTML, like Gecko) Chrome/119.0.0.0 Safari/537.36"

/-- The fixed Referer of `src/main.py` line 75. -/
def xhsReferer : String := "https://www.xiaohongshu.com/"

/-- The header dict sent on every outbound proxy GET. -/
def spoofedHeaders : List (String × String) :=
  [("User-Agent", chromeUA), ("Referer", xhsReferer)]

/-- The httpx success range: `raise_for_status` passes exactly the 2xx
statuses through. -/
def is_success (code : Nat) : Bool := 200 ≤ code && code < 300

/-- What the proxy returns to its caller: a streaming response, or an
`HTTPException` which FastAPI renders as a JSON error body. -/
inductive ProxyResult where
  | streaming (statusCode : Nat) (mediaType : String)
      (headers : List (String × String)) (body : List Nat)
  | httpError (statusCode : Nat) (detail : String)
  deriving Repr, DecidableEq

/-- Model of `str(e)` for an `httpx.HTTPStatusError`. -/
def statusErrDetail (url : String) (code : Nat) : String :=
  toString code ++ " error for url " ++ url

/-- The part of `download_proxy` after the outbound GET: `raise_for_status`
plus the two `except` branches. -/
def handleFetch (url : String) : FetchResult → ProxyResult
  | .requestError m => .httpError 500 ("资源获取失败: " ++ m)
  | .response r =>
    if is_success r.statusCode then
      .streaming r.statusCode (r.contentType.getD "application/octet-stream")
        [("Content-Length", r.contentLength.getD "0"), ("Content-Disposition", "inline")]
        r.body
    else
      .httpError r.statusCode (statusErrDetail url r.statusCode)

/-- `download_proxy` of `src/main.py` lines 61-98, parameterised by the
outbound fetch operation, which receives the URL and the headers the
proxy sends. -/
def download_proxy (fetch : String → List (String × String) → FetchResult) (url : String) :
    ProxyResult :=
  if url = "" then .httpError 400 "URL 参数必填"
  else handleFetch url (fetch url spoofedHeaders)

/-- Status code of the response the caller of the proxy route receives. -/
def responseStatus : ProxyResult → Nat
  | .streaming s _ _ _ => s
  | .httpError s _ => s

/-- Content type of the response the caller receives; FastAPI renders an
`HTTPException` as an `application/json` error body. -/
def responseContentType : ProxyResult → String
  | .streaming _ mt _ _ => mt
  | .httpError _ _ => "application/json"

/-- Value of a header in an ordered header list. -/
def headerValue (k : String) (hs : List (String × String)) : Option String :=
  Option.map (fun kv => kv.2) (List.find? (fun kv => kv.1 == k) hs)

/-- In every success case `download_proxy` returns a streaming response
carrying the upstream status, the upstream content-type (defaulted when
absent), the fixed header pair, and exactly the upstream body bytes. -/
theorem download_proxy_success_eq (fetch : String → List (String × String) → FetchResult)
    (url : String) (r : UpstreamResponse) (hu : ¬ url = "")
    (hf : fetch url spoofedHeaders = .response r) (hs : is_success r.statusCode = true) :
    download_proxy fetch url =
      .streaming r.statusCode (r.contentType.getD "application/octet-stream")
        [("Content-Length", r.contentLength.getD "0"), ("Content-Disposition", "inline")]
        r.body := by
  simp [download_proxy, hu, hf, handleFetch, hs]

/-! ## Module-level names of `src/main.py`

For the well-formedness claim about the signature of `download_proxy`:
the names bound at module top level before line 62 (the imports of lines
1-12 plus `app`, `templates` and `get_auth_dependency`), the Python
builtins the signature could fall back to, and the names the signature
references (`str` as the annotation, `Query` in the default value, which
Python evaluates when the `def` executes). -/

/-- Names bound in the module of `src/main.py` when line 62 executes. -/
def moduleBoundNames : List String :=
  ["os", "re", "secrets", "VideoSource", "parse_video_id", "parse_video_share_url",
   "httpx", "uvicorn", "Depends", "FastAPI", "HTTPException", "Request", "status",
   "CORSMiddleware", "HTMLResponse", "StreamingResponse", "HTTPBasic",
   "HTTPBasicCredentials", "Jinja2Templates", "app", "templates", "get_auth_dependency"]

/-- A representative set of always-available Python builtin names. -/
def pythonBuiltins : List String :=
  ["str", "int", "float", "bool", "bytes", "list", "dict", "set", "tuple",
   "len", "print", "range", "Exception", "AttributeError", "NameError"]

/-- Names referenced in the signature line of `download_proxy`
(`url: str = Query(...)`, line 62). -/
def downloadProxySignatureNames : List String := ["str", "Query"]

/-! ## Basic-auth dependency

`get_auth_dependency` (`src/main.py` lines 28-58) reads the two
environment variables when the route decorators run (once, at module
import).  Python truthiness makes a set-but-empty variable behave like an
unset one.  `secrets.compare_digest` is constant-time string equality.
A FastAPI dependency runs before the handler body. -/

/-- Snapshot of the two environment variables at startup; `none` is an
unset variable, `some ""` a set-but-empty one. -/
structure Env where
  username : Option String
  password : Option String
  deriving Repr, DecidableEq

/-- Python truthiness of an `os.getenv` result. -/
def truthy : Option String → Bool
  | none => false
  | some s => !(s == "")

/-- Credentials carried by a Basic Authorization header. -/
structure HTTPBasicCredentials where
  username : String
  password : String
  deriving Repr, DecidableEq

/-- A raised `HTTPException` of the auth dependency. -/
structure HTTPExceptionModel where
  statusCode : Nat
  detail : String
  headers : List (String × String)
  deriving Repr, DecidableEq

/-- `get_auth_dependency` of `src/main.py` lines 28-58: when
`PARSE_VIDEO_USERNAME and PARSE_VIDEO_PASSWORD` is truthy it returns the
`verify_credentials` dependency, otherwise an empty dependency list. -/
def get_auth_dependency (env : Env) :
    Option (HTTPBasicCredentials → Except HTTPExceptionModel HTTPBasicCredentials) :=
  if truthy env.username && truthy env.password then
    some (fun credentials =>
      if credentials.username = env.username.getD "" ∧
          credentials.password = env.password.getD "" then
        .ok credentials
      else
        .error { statusCode := 401, detail := "Incorrect username or password",
                 headers := [("WWW-Authenticate", "Basic")] })
  else
    none

/-- What the caller of a guarded parse endpoint receives: either the
rejection produced by the dependency or the handler body result. -/
inductive GuardedResult where
  | unauthorized (statusCode : Nat) (detail : String) (headers : List (String × String))
  | handled (response : HandlerResponse)
  deriving Repr, DecidableEq

/-- Run a parse endpoint behind the dependency list produced by
`get_auth_dependency`: the dependency runs first; only when it does not
raise does the handler body run.  A missing Authorization header is
rejected by `HTTPBasic` itself with 401. -/
def run_with_auth (env : Env) (credentials : Option HTTPBasicCredentials)
    (handler : Unit → HandlerResponse) : GuardedResult :=
  match get_auth_dependency env with
  | none => .handled (handler ())
  | some verify =>
    match credentials with
    | none => .unauthorized 401 "Not authenticated" [("WWW-Authenticate", "Basic")]
    | some c =>
      match verify c with
      | .error e => .unauthorized e.statusCode e.detail e.headers
      | .ok _ => .handled (handler ())

/-- The `/video/share/url/parse` route with its dependency list. -/
def guarded_share_url_parse (env : Env) (credentials : Option HTTPBasicCredentials)
    (w : Char → Bool) (parse : String → Except ParserError ResolvedVideo)
    (url : String) : GuardedResult :=
  run_with_auth env credentials (fun _ => share_url_parse w parse url)

/-- The `/video/id/parse` route with its dependency list. -/
def guarded_video_id_parse (env : Env) (credentials : Option HTTPBasicCredentials)
    (parse : VideoSource → String → Except ParserError ResolvedVideo)
    (source : VideoSource) (videoId : String) : GuardedResult :=
  run_with_auth env credentials (fun _ => video_id_parse parse source videoId)

/-! ## Modelled parser for the resolveById determinism claim

`parse_video_id` lives in the `parser` package of the repository, which
is not under `src/`; it is modelled from the spec here. -/

/-- Modelled from the spec: the platform-side payload an adapter extracts
from the upstream post. -/
structure PostPayload where
  title : String
  authorName : String
  authorAvatar : String
  cover : String
  videoUrl : String
  musicUrl : Option String
  images : List String
  deriving Repr, DecidableEq

/-- Whether the needle occurs as a contiguous segment of the haystack. -/
def containsSeg (needle : List Char) : List Char → Bool
  | [] => needle.isEmpty
  | c :: t => List.isPrefixOf needle (c :: t) || containsSeg needle t

/-- Modelled from the spec: a platform adapter, a `matches` predicate over
raw text plus a `resolve` against an explicit upstream model. -/
structure Adapter where
  domain : String
  source : VideoSource

/-- Modelled from the spec: the `matches` test of an adapter, a substring
test against the platform domain. -/
def Adapter.matches (a : Adapter) (text : String) : Bool :=
  containsSeg a.domain.data text.data

/-- Modelled from the spec: the `resolve` of an adapter against an
explicit, unchanged upstream: locate the post payload and map its fields
into `ResolvedVideo`, failing with `NotFoundError` when the post cannot
be located. -/
def Adapter.resolve (a : Adapter) (upstream : VideoSource → String → Option PostPayload)
    (videoId : String) : Except ParserError ResolvedVideo :=
  match upstream a.source videoId with
  | none => .error { kind := .notFoundError, msg := "post not found" }
  | some p =>
    .ok { source := a.source, title := p.title,
          author := { name := p.authorName, avatarUrl := p.authorAvatar },
          coverUrl := p.cover, videoUrl := p.videoUrl,
          musicUrl := p.musicUrl, images := p.images }

/-- Modelled from the spec: the process-wide Source Registry, built once,
in a fixed registration order. -/
def registry : List Adapter :=
  [{ domain := "douyin.com", source := .douYin },
   { domain := "kuaishou.com", source := .kuaiShou },
   { domain := "xiaohongshu.com", source := .xiaoHongShu }]

/-- Modelled from the spec: `parse_video_id` / `resolveById` — direct
registry lookup by `VideoSource`, then delegation to the adapter
`resolve`; no caching, no retries, no state beyond the upstream. -/
def parse_video_id (upstream : VideoSource → String → Option PostPayload)
    (source : VideoSource) (videoId : String) : Except ParserError ResolvedVideo :=
  match List.find? (fun a => a.source == source) registry with
  | none => .error { kind := .unsupportedSourceError, msg := "no adapter for source" }
  | some a => a.resolve upstream videoId

/-! ## Spec-side predicates for the Referer claim -/

/-- Modelled from the spec: the domains of the known platforms named in
section 3. -/
def knownPlatformDomains : List String :=
  ["douyin.com", "kuaishou.com", "xiaohongshu.com"]

/-- Modelled from the spec: whether the origin of a URL belongs to a known
platform. -/
def urlOriginKnown (url : String) : Bool :=
  List.any knownPlatformDomains (fun d => containsSeg d.data url.data)

/-- Modelled from the spec: a Referer that references a known platform
domain is platform-specific. -/
def refererIsPlatformSpecific (r : String) : Bool :=
  List.any knownPlatformDomains (fun d => containsSeg d.data r.data)

/-- Modelled from the spec: a generic browser Referer or an empty one, as
required for unknown origins. -/
def specGenericOrEmpty (r : String) : Bool :=
  (r == "") || !refererIsPlatformSpecific r

/-! ## Concrete fixtures used by witnesses and counterexamples -/

/-- A parse operation that always raises a `NetworkError`. -/
def pNetDown : String → Except ParserError ResolvedVideo :=
  fun _ => .error { kind := .networkError, msg := "net down" }

/-- A parse operation that always raises a `NotFoundError`. -/
def pNotFound : String → Except ParserError ResolvedVideo :=
  fun _ => .error { kind := .notFoundError, msg := "gone" }

/-- An id-parse operation that always raises an `UpstreamFormatError`. -/
def pIdDrift : VideoSource → String → Except ParserError ResolvedVideo :=
  fun _ _ => .error { kind := .upstreamFormatError, msg := "drift" }

/-- A fixture upstream 403 response with an HTML body content type. -/
def upstream403 : UpstreamResponse :=
  { statusCode := 403, contentType := some "text/html", contentLength := none, body := [] }

/-- A fetch whose upstream always answers 403 `text/html`. -/
def fetch403 : String → List (String × String) → FetchResult :=
  fun _ _ => .response upstream403

/-- A fixture 200 response that omits Content-Length. -/
def rNoLen : UpstreamResponse :=
  { statusCode := 200, contentType := some "image/jpeg", contentLength := none,
    body := [1, 2, 3] }

/-- A fetch whose upstream always answers with `rNoLen`. -/
def fetchNoLen : String → List (String × String) → FetchResult :=
  fun _ _ => .response rNoLen

/-- A fetch that reports back the Referer header it was sent, as the
message of a transport error: it makes the outbound headers observable
in the proxy result. -/
def echoRefererFetch : String → List (String × String) → FetchResult :=
  fun _ hs => .requestError ((headerValue "Referer" hs).getD "")

/-- A fixture upstream post payload. -/
def demoPayload : PostPayload :=
  { title := "demo", authorName := "alice",
    authorAvatar := "https://p.example.com/a.png",
    cover := "https://p.example.com/c.jpg",
    videoUrl := "https://cdn.example.com/v.mp4", musicUrl := none, images := [] }

/-- A fixture upstream holding exactly one DouYin post with id 7123. -/
def upstream0 : VideoSource → String → Option PostPayload :=
  fun s videoId =>
    if s == VideoSource.douYin && videoId == "7123" then some demoPayload else none

/-! ## Claims -/

/-- C1 (counterexample): on the input "parse this plain text", which
contains no URL-shaped substring under any word class — the literal
"http" the pattern requires occurs nowhere in it, so CPython fails on it
exactly like both instances below — `share_url_parse` does not fail with
`InvalidInputError` (nor with any structured error): the regex search
returns `None` and calling `.group()` on it raises an uncaught
`AttributeError`. -/
theorem c1_counterexample :
    searchFrom asciiWordChar ("parse this plain text").data = none ∧
    searchFrom cjkWordChar ("parse this plain text").data = none ∧
    share_url_parse asciiWordChar pNetDown "parse this plain text" =
      .uncaught (.attributeError noneTypeGroupMsg) ∧
    isStructuredFailure (share_url_parse asciiWordChar pNetDown "parse this plain text")
      = false := by
  refine ⟨by decide, by decide, by decide, by decide⟩

/-- C1 (amended): for every interpretation `w` of the regex word class —
in particular CPython Unicode `\w` — and every input string in which the
URL pattern matches at no position under `w`, `share_url_parse` raises an
uncaught `AttributeError` (`NoneType` has no attribute `group`), never
returns a structured error, and never invokes the parse operation. -/
theorem c1_no_url_uncaught_attribute_error (w : Char → Bool)
    (parse : String → Except ParserError ResolvedVideo) (s : String)
    (h : searchFrom w s.data = none) :
    (∀ j, matchUrlHere w (List.drop j s.data) = none) ∧
    share_url_parse w parse s = .uncaught (.attributeError noneTypeGroupMsg) ∧
    (∀ q, share_url_parse w q s = share_url_parse w parse s) := by
  refine ⟨searchFrom_none_spec w s.data h, ?_, ?_⟩
  · simp [share_url_parse, urlRegSearch, h]
  · intro q
    simp [share_url_parse, urlRegSearch, h]

/-- C1 (witness): the amended claim evaluated on "hello world" with the
ASCII fragment, with which CPython agrees on this all-ASCII input. -/
theorem c1_witness :
    matchUrlHere asciiWordChar (List.drop 0 ("hello world").data) = none ∧
    share_url_parse asciiWordChar pNetDown "hello world" =
      .uncaught (.attributeError noneTypeGroupMsg) := by
  have h := c1_no_url_uncaught_attribute_error asciiWordChar pNetDown "hello world"
    (by decide)
  exact ⟨h.1 0, h.2.1⟩

/-- C2 (counterexample): for an upstream 403 whose content type is
`text/html`, the proxy keeps the 403 status but re-raises it as an
`HTTPException`, whose rendered body is `application/json`: the
Content-Type of the proxied response is not the upstream Content-Type,
so the claim as stated is false. -/
theorem c2_counterexample :
    fetch403 "https://cdn.example.com/v.mp4" spoofedHeaders = .response upstream403 ∧
    upstream403.contentType = some "text/html" ∧
    responseStatus (download_proxy fetch403 "https://cdn.example.com/v.mp4") = 403 ∧
    ¬ responseContentType (download_proxy fetch403 "https://cdn.example.com/v.mp4")
        = "text/html" := by
  refine ⟨rfl, rfl, by decide, by decide⟩

/-- C2 (amended): for every upstream response the proxied status code
equals the upstream status exactly (an upstream 403 yields a 403, not a
translated 500); the Content-Type equals the upstream one only on 2xx
responses, while a non-2xx response becomes an `HTTPException` carrying
the upstream status. -/
theorem c2_status_passthrough (fetch : String → List (String × String) → FetchResult)
    (url : String) (r : UpstreamResponse) (hu : ¬ url = "")
    (hf : fetch url spoofedHeaders = .response r) :
    responseStatus (download_proxy fetch url) = r.statusCode ∧
    (is_success r.statusCode = true → ∀ ct, r.contentType = some ct →
      responseContentType (download_proxy fetch url) = ct) ∧
    (is_success r.statusCode = false →
      download_proxy fetch url = .httpError r.statusCode (statusErrDetail url r.statusCode)) := by
  have hd : download_proxy fetch url = handleFetch url (fetch url spoofedHeaders) := by
    simp [download_proxy, hu]
  rw [hd, hf]
  cases hs : is_success r.statusCode with
  | true =>
    refine ⟨by simp [handleFetch, hs, responseStatus], ?_, ?_⟩
    · intro _ ct hct
      simp [handleFetch, hs, responseContentType, hct]
    · intro hfalse
      exact absurd hfalse (by decide)
  | false =>
    refine ⟨by simp [handleFetch, hs, responseStatus], ?_, by simp [handleFetch, hs]⟩
    intro htrue
    exact absurd htrue (by decide)

/-- C2 (witness): the amended claim evaluated on the 403 fixture. -/
theorem c2_witness :
    responseStatus (download_proxy fetch403 "https://cdn.example.com/v.mp4") = 403 ∧
    download_proxy fetch403 "https://cdn.example.com/v.mp4" =
      .httpError 403 (statusErrDetail "https://cdn.example.com/v.mp4" 403) := by
  have h := c2_status_passthrough fetch403 "https://cdn.example.com/v.mp4" upstream403
    (by decide) rfl
  exact ⟨h.1, h.2.2 (by decide)⟩

/-- C3: the signature of `download_proxy` references the name `Query`,
which is neither bound in the module of `src/main.py` nor a Python
builtin, so evaluating the `def` raises `NameError` and the route is
never defined: the well-formedness claim fails on the code. -/
theorem c3_query_unbound :
    "Query" ∈ downloadProxySignatureNames ∧
    ¬ "Query" ∈ moduleBoundNames ∧
    ¬ "Query" ∈ pythonBuiltins := by
  refine ⟨by decide, by decide, by decide⟩

/-- C4 (counterexample): two parser errors of different kinds but equal
message produce identical handler responses, so the handlers do not
return the error unchanged in kind: the kind is reclassified into a
uniform code-500 body. -/
theorem c4_counterexample :
    ¬ ErrorKind.notFoundError = ErrorKind.networkError ∧
    share_url_parse asciiWordChar
        (fun _ => .error { kind := .notFoundError, msg := "boom" }) "http://a.com/x" =
      share_url_parse asciiWordChar
        (fun _ => .error { kind := .networkError, msg := "boom" }) "http://a.com/x" ∧
    share_url_parse asciiWordChar
        (fun _ => .error { kind := .notFoundError, msg := "boom" }) "http://a.com/x"
      = .failure 500 "boom" := by
  refine ⟨by decide, by decide, by decide⟩

/-- C4 (amended): both dispatcher handlers catch every parser error and
return the uniform body `{"code": 500, "msg": str(err)}`: the message
content is preserved, but the error kind is discarded — the response is
the same for every kind carrying the same message. -/
theorem c4_errors_uniform_500_message_preserved (w : Char → Bool)
    (parse : String → Except ParserError ResolvedVideo)
    (parseId : VideoSource → String → Except ParserError ResolvedVideo)
    (s m : String) (source : VideoSource) (videoId : String) (e e2 : ParserError)
    (hm : urlRegSearch w s = some m) (he : parse m = .error e)
    (hid : parseId source videoId = .error e2) :
    share_url_parse w parse s = .failure 500 e.msg ∧
    video_id_parse parseId source videoId = .failure 500 e2.msg ∧
    (∀ k : ErrorKind,
      share_url_parse w (fun _ => .error { kind := k, msg := e.msg }) s
        = .failure 500 e.msg) := by
  refine ⟨?_, ?_, ?_⟩
  · simp [share_url_parse, hm, he, respond]
  · simp [video_id_parse, hid, respond]
  · intro k
    simp [share_url_parse, hm, respond]

/-- C4 (witness): the amended claim evaluated on concrete errors. -/
theorem c4_witness :
    share_url_parse asciiWordChar pNotFound "http://a.com/x" = .failure 500 "gone" ∧
    video_id_parse pIdDrift .douYin "7" = .failure 500 "drift" := by
  have h := c4_errors_uniform_500_message_preserved asciiWordChar pNotFound pIdDrift
    "http://a.com/x" "http://a.com/x" .douYin "7"
    { kind := .notFoundError, msg := "gone" }
    { kind := .upstreamFormatError, msg := "drift" } (by decide) rfl rfl
  exact ⟨h.1, h.2.1⟩

/-- C5: for every interpretation `w` of the regex word class — in
particular CPython Unicode `\w` — when the URL pattern matches somewhere
in the text, `share_url_parse` extracts the match at the leftmost
matching position — no earlier position matches — and hands exactly that
substring, and nothing else, to the parse operation. -/
theorem c5_extracts_leftmost_url (w : Char → Bool) (s : String) (i n : Nat)
    (h : searchFrom w s.data = some (i, n)) :
    matchUrlHere w (List.drop i s.data) = some n ∧
    (∀ j, j < i → matchUrlHere w (List.drop j s.data) = none) ∧
    (∀ parse, share_url_parse w parse s =
      respond (parse (String.mk (List.take n (List.drop i s.data))))) := by
  obtain ⟨h1, h2⟩ := searchFrom_spec w s.data i n h
  refine ⟨h1, h2, ?_⟩
  intro parse
  simp [share_url_parse, urlRegSearch, h]

/-- C5 (witness): with the ASCII fragment, on "check http://a.b/c ok" the
match starts at index 6 with length 12 and exactly "http://a.b/c"
reaches the parse operation; with the CJK-extended class, on the share
text "https://v.douyin.com/abc复制此链接" the whole 29-character string
reaches it — both agreeing with CPython on these inputs. -/
theorem c5_witness :
    searchFrom asciiWordChar ("check http://a.b/c ok").data = some (6, 12) ∧
    share_url_parse asciiWordChar pNetDown "check http://a.b/c ok" =
      respond (pNetDown "http://a.b/c") ∧
    share_url_parse cjkWordChar pNetDown "https://v.douyin.com/abc复制此链接" =
      respond (pNetDown "https://v.douyin.com/abc复制此链接") := by
  have h := c5_extracts_leftmost_url asciiWordChar "check http://a.b/c ok" 6 12 (by decide)
  have h2 := c5_extracts_leftmost_url cjkWordChar "https://v.douyin.com/abc复制此链接"
    0 29 (by decide)
  exact ⟨by decide, (h.2.2 pNetDown).trans (by decide),
    (h2.2.2 pNetDown).trans (by decide)⟩

/-- C7: two calls of `video_id_parse` with the same source and id against
the same unchanged upstream produce equal results, field for field on
every `ResolvedVideo` they return. -/
theorem c7_resolve_by_id_deterministic
    (upstream : VideoSource → String → Option PostPayload)
    (source : VideoSource) (videoId : String) (r1 r2 : HandlerResponse)
    (h1 : r1 = video_id_parse (parse_video_id upstream) source videoId)
    (h2 : r2 = video_id_parse (parse_video_id upstream) source videoId) :
    r1 = r2 ∧
    (∀ c m v c2 m2 v2, r1 = .success c m v → r2 = .success c2 m2 v2 →
      v.source = v2.source ∧ v.title = v2.title ∧ v.author = v2.author ∧
      v.coverUrl = v2.coverUrl ∧ v.videoUrl = v2.videoUrl ∧
      v.musicUrl = v2.musicUrl ∧ v.images = v2.images) := by
  subst h1
  subst h2
  refine ⟨rfl, ?_⟩
  intro c m v c2 m2 v2 hv hv2
  rw [hv] at hv2
  injection hv2 with hc hm hveq
  subst hveq
  exact ⟨rfl, rfl, rfl, rfl, rfl, rfl, rfl⟩

/-- C7 (witness): the determinism claim evaluated on a fixture upstream
with one DouYin post. -/
theorem c7_witness :
    video_id_parse (parse_video_id upstream0) .douYin "7123" =
      video_id_parse (parse_video_id upstream0) .douYin "7123" ∧
    video_id_parse (parse_video_id upstream0) .douYin "7123" =
      .success 200 "解析成功"
        { source := .douYin, title := "demo",
          author := { name := "alice", avatarUrl := "https://p.example.com/a.png" },
          coverUrl := "https://p.example.com/c.jpg",
          videoUrl := "https://cdn.example.com/v.mp4",
          musicUrl := none, images := [] } := by
  refine ⟨(c7_resolve_by_id_deterministic upstream0 .douYin "7123" _ _ rfl rfl).1,
    by decide⟩

/-- C8 (counterexample): the origin of
"https://cdn.example.com/v.mp4" is not a known platform, yet the Referer
the proxy sends outbound — made observable through `echoRefererFetch` —
is the fixed platform-specific `https://www.xiaohongshu.com/`, which is
neither a generic browser Referer nor empty. -/
theorem c8_counterexample :
    urlOriginKnown "https://cdn.example.com/v.mp4" = false ∧
    download_proxy echoRefererFetch "https://cdn.example.com/v.mp4" =
      .httpError 500 ("资源获取失败: " ++ xhsReferer) ∧
    specGenericOrEmpty xhsReferer = false := by
  refine ⟨by decide, by decide, by decide⟩

/-- C8 (amended): every outbound GET of the proxy carries exactly
`spoofedHeaders`: the spoofed Chrome User-Agent together with the fixed
Referer `https://www.xiaohongshu.com/`, regardless of the URL origin. -/
theorem c8_fixed_spoofed_headers (fetch : String → List (String × String) → FetchResult)
    (url : String) (hu : ¬ url = "") :
    download_proxy fetch url = handleFetch url (fetch url spoofedHeaders) ∧
    headerValue "User-Agent" spoofedHeaders = some chromeUA ∧
    headerValue "Referer" spoofedHeaders = some xhsReferer := by
  refine ⟨by simp [download_proxy, hu], rfl, rfl⟩

/-- C8 (witness): the amended claim evaluated at the echo fetch and an
unknown-origin URL. -/
theorem c8_witness :
    download_proxy echoRefererFetch "https://cdn.example.com/v.mp4" =
      handleFetch "https://cdn.example.com/v.mp4"
        (echoRefererFetch "https://cdn.example.com/v.mp4" spoofedHeaders) ∧
    headerValue "User-Agent" spoofedHeaders = some chromeUA ∧
    headerValue "Referer" spoofedHeaders = some xhsReferer :=
  c8_fixed_spoofed_headers echoRefererFetch "https://cdn.example.com/v.mp4" (by decide)

/-- C9: every successfully proxied response carries the headers
`Content-Disposition: inline` and `Content-Length` equal to the upstream
value when present and to the literal "0" when the upstream omits it. -/
theorem c9_response_headers (fetch : String → List (String × String) → FetchResult)
    (url : String) (r : UpstreamResponse) (hu : ¬ url = "")
    (hf : fetch url spoofedHeaders = .response r) (hs : is_success r.statusCode = true) :
    download_proxy fetch url =
      .streaming r.statusCode (r.contentType.getD "application/octet-stream")
        [("Content-Length", r.contentLength.getD "0"), ("Content-Disposition", "inline")]
        r.body ∧
    headerValue "Content-Disposition"
      [("Content-Length", r.contentLength.getD "0"), ("Content-Disposition", "inline")]
      = some "inline" ∧
    (∀ cl, r.contentLength = some cl → r.contentLength.getD "0" = cl) ∧
    (r.contentLength = none → r.contentLength.getD "0" = "0") := by
  refine ⟨download_proxy_success_eq fetch url r hu hf hs, rfl, ?_, ?_⟩
  · intro cl hcl
    rw [hcl]
    rfl
  · intro hcl
    rw [hcl]
    rfl

/-- C9 (witness): an upstream 200 without Content-Length yields the
literal "0" next to `Content-Disposition: inline`. -/
theorem c9_witness :
    download_proxy fetchNoLen "https://img.example.com/p.jpg" =
      .streaming 200 "image/jpeg"
        [("Content-Length", "0"), ("Content-Disposition", "inline")] [1, 2, 3] := by
  have h := c9_response_headers fetchNoLen "https://img.example.com/p.jpg" rNoLen
    (by decide) rfl rfl
  exact h.1.trans (by decide)

/-- C10 (counterexample): with `PARSE_VIDEO_USERNAME` set to the empty
string and `PARSE_VIDEO_PASSWORD` set to "pass" — both variables set —
a request with non-matching credentials is not rejected: the dependency
list is empty and the parse logic runs. -/
theorem c10_counterexample :
    (Env.mk (some "") (some "pass")).username.isSome = true ∧
    (Env.mk (some "") (some "pass")).password.isSome = true ∧
    ¬ ((HTTPBasicCredentials.mk "admin" "wrong").username = "" ∧
       (HTTPBasicCredentials.mk "admin" "wrong").password = "pass") ∧
    guarded_share_url_parse (Env.mk (some "") (some "pass"))
      (some (HTTPBasicCredentials.mk "admin" "wrong")) asciiWordChar pNetDown
      "http://a.com/x" =
      .handled (.failure 500 "net down") := by
  refine ⟨rfl, rfl, by decide, by decide⟩

/-- C10 (amended): when both variables are set to non-empty values, every
request whose Basic credentials do not match both exactly is rejected
with 401 and `WWW-Authenticate: Basic` before the handler body runs;
when the pair is not truthy (either variable unset or empty), no
credential check is applied to any guarded endpoint. -/
theorem c10_auth_guard (env : Env) :
    (∀ u p, env.username = some u → env.password = some p →
      ¬ u = "" → ¬ p = "" →
      ∀ creds handler, ¬ (creds.username = u ∧ creds.password = p) →
        run_with_auth env (some creds) handler =
          .unauthorized 401 "Incorrect username or password"
            [("WWW-Authenticate", "Basic")]) ∧
    ((truthy env.username && truthy env.password) = false →
      ∀ credentials handler,
        run_with_auth env credentials handler = .handled (handler ())) := by
  constructor
  · intro u p h1 h2 hu hp creds handler hbad
    have ht : (truthy env.username && truthy env.password) = true := by
      rw [h1, h2]
      simp [truthy, hu, hp]
    simp only [run_with_auth, get_auth_dependency, ht, if_true]
    simp only [h1, h2, Option.getD_some]
    rw [if_neg hbad]
  · intro hoff credentials handler
    have hnone : get_auth_dependency env = none := by
      simp [get_auth_dependency, hoff]
    simp [run_with_auth, hnone]

/-- C10 (witness): the amended claim evaluated on concrete environments:
mismatching credentials against non-empty values are rejected with 401,
and an unset username disables the check. -/
theorem c10_witness :
    run_with_auth (Env.mk (some "user") (some "pass"))
      (some (HTTPBasicCredentials.mk "user" "wrong"))
      (fun _ => share_url_parse asciiWordChar pNetDown "http://a.com/x") =
      .unauthorized 401 "Incorrect username or password"
        [("WWW-Authenticate", "Basic")] ∧
    run_with_auth (Env.mk none (some "pass")) none
      (fun _ => share_url_parse asciiWordChar pNetDown "http://a.com/x") =
      .handled (share_url_parse asciiWordChar pNetDown "http://a.com/x") := by
  constructor
  · exact (c10_auth_guard (Env.mk (some "user") (some "pass"))).1 "user" "pass" rfl rfl
      (by decide) (by decide) (HTTPBasicCredentials.mk "user" "wrong") _ (by decide)
  · exact (c10_auth_guard (Env.mk none (some "pass"))).2 (by decide) none _
